/-
Verification of the CKICAS Community Resilience trigger evaluation engine.

The development shallowly embeds the engine's components:
  * the comparison core `evaluate_condition` of
    `backend/services/email_service.py`,
  * the condition evaluator, combination-rule resolver, rate limiter and
    recommendation generator of `backend/services/trigger_engine.py`
    (this module is re-exported by `backend/services/__init__.py` and
    exercised by `backend/services/test_trigger_engine.py`, but its own
    source file is not present in the tree; those definitions are
    modelled from the specification, with the unit tests as witnesses),
  * the notification rate limiter `should_send_notification` of
    `backend/services/email_service.py`,
  * the request validation models and the `toggle_trigger` route of
    `backend/routes/triggers.py`,
  * the persistence helper `get_user_triggers` of `backend/database.py`.

Numeric values (thresholds, weather readings, timestamps) are modelled as
rationals: the Python code compares IEEE doubles, and every comparison the
engine performs agrees with the comparison of the rational values those
doubles denote, `==` being exact equality with no tolerance.  Timestamps
are rationals measured in hours.  Database state is modelled as an
explicit list of rows, and fallible lookups as `Except` values.
-/
import Mathlib

namespace EmailService

/-- Comparison core, from `evaluate_condition` in
`backend/services/email_service.py` (lines 246-268): a five-way case split
on the operator string, any other operator returning `False`. -/
def evaluate_condition (actual_value : ℚ) (operator : String) (threshold : ℚ) : Bool :=
  if operator = ">" then decide (actual_value > threshold)
  else if operator = "<" then decide (actual_value < threshold)
  else if operator = ">=" then decide (actual_value ≥ threshold)
  else if operator = "<=" then decide (actual_value ≤ threshold)
  else if operator = "==" then decide (actual_value = threshold)
  else false

end EmailService

namespace TriggerEngine

/-- A JSON-ish scalar as it reaches the evaluator from a stored condition
or a weather snapshot: a number, a string, or null. -/
inductive Value where
  | num : ℚ → Value
  | str : String → Value
  | null : Value
deriving DecidableEq

/-- Splits a character list at the first dot, returning the part before it
and, when a dot occurs, the part after it. -/
def splitAtDot : List Char → List Char × Option (List Char)
  | [] => ([], none)
  | c :: cs =>
    if c = '.' then ([], some cs)
    else
      let r := splitAtDot cs
      (c :: r.1, r.2)

/-- Reads a run of decimal digits as a natural number; any non-digit
character makes the run unreadable.  The empty run reads as `0` (callers
rule out the all-empty numeral). -/
def digitsVal (cs : List Char) : Option ℕ :=
  cs.foldl
    (fun acc c =>
      match acc with
      | some n => if c.isDigit then some (n * 10 + (c.toNat - 48)) else none
      | none => none)
    (some 0)

/-- Reads a plain decimal numeral (optional sign, digits, optional
fractional part) into a signed mantissa and a decimal exponent, the
denoted value being `mantissa / 10 ^ exponent`. -/
def parseParts (s : String) : Option (ℤ × ℕ) :=
  let cs := s.data
  let neg := match cs with
    | '-' :: _ => true
    | _ => false
  let body := match cs with
    | '-' :: rest => rest
    | _ => cs
  let sgn : ℕ → ℤ := fun n => if neg then -(n : ℤ) else (n : ℤ)
  match splitAtDot body with
  | (ip, none) =>
    if ip.isEmpty then none
    else (digitsVal ip).map (fun n => (sgn n, 0))
  | (ip, some fp) =>
    if ip.isEmpty && fp.isEmpty then none
    else
      match digitsVal ip, digitsVal fp with
      | some n, some f => some (sgn (n * 10 ^ fp.length + f), fp.length)
      | _, _ => none

/-- Modelled from the spec: the numeric coercion `float(...)` applied by
the condition evaluator of `backend/services/trigger_engine.py` (absent
from the tree) to string inputs — "string-encoded numerics such as `25.0`
must be accepted and converted; a non-numeric, non-coercible value is a
validation error".  Plain decimal numerals with an optional sign and an
optional fractional part are accepted, with their exact decimal value. -/
def parseDecimal (s : String) : Option ℚ :=
  (parseParts s).map (fun p => (p.1 : ℚ) / (10 : ℚ) ^ p.2)

/-- Coercion of a scalar to a number: numbers stand for themselves,
strings are parsed, null never coerces. -/
def toFloat : Value → Option ℚ
  | Value.num q => some q
  | Value.str s => parseDecimal s
  | Value.null => none

/-- The indicator-to-field map of `backend/services/trigger_engine.py`,
as pinned down by `TestOperatorsAndIndicatorMaps.test_indicator_map_values`
in `backend/services/test_trigger_engine.py`. -/
def INDICATOR_MAP : List (String × String) :=
  [("temp", "temperature"), ("rainfall", "rainfall"),
   ("humidity", "humidity"), ("wind_speed", "wind_speed")]

/-- The five supported comparison operators, as pinned down by
`TestOperatorsAndIndicatorMaps.test_all_operators_defined`. -/
def OPERATORS : List String := [">", "<", ">=", "<=", "=="]

/-- A condition record as the evaluator receives it; each field may be
absent (the dict may miss keys). -/
structure Condition where
  indicator : Option String
  operator : Option String
  threshold_value : Option Value
deriving DecidableEq

/-- A weather snapshot: an association of field names to scalar values.
An absent field and a field explicitly set to null are distinct. -/
def WeatherData := List (String × Value)

/-- Modelled from the spec: `evaluate_condition(condition, weather_data)`
of `backend/services/trigger_engine.py` (absent from the tree), following
spec section 4.1 and the unit tests of
`backend/services/test_trigger_engine.py`: validate the three condition
fields, the indicator, and the operator; resolve the indicator to a
weather field; reject an absent or null reading; coerce both sides to
numbers; compare with the operator. -/
def evaluate_condition (c : Condition) (w : WeatherData) : Bool × Option String :=
  match c.indicator, c.operator, c.threshold_value with
  | some ind, some op, some tv =>
    match INDICATOR_MAP.lookup ind with
    | none => (false, some "Invalid indicator")
    | some field =>
      if op ∈ OPERATORS then
        match (List.lookup field w : Option Value) with
        | none => (false, some ("missing indicator " ++ field))
        | some Value.null => (false, some "null value")
        | some v =>
          match toFloat v, toFloat tv with
          | some a, some t => (EmailService.evaluate_condition a op t, none)
          | _, _ => (false, some "non-numeric value")
      else (false, some "Invalid operator")
  | _, _, _ => (false, some "missing required fields")

/-- Modelled from the spec: `apply_combination_rule` of
`backend/services/trigger_engine.py` (absent from the tree), following
spec section 4.2 and `TestCombinationRules` in
`backend/services/test_trigger_engine.py`: `any_N` fires iff at least `N`
conditions matched, `all` fires iff every condition matched (vacuously
true at zero conditions), and any other rule name resolves to false. -/
def apply_combination_rule (rule : String) (conditions_met_count : ℕ)
    (total_conditions : ℕ) : Bool :=
  if rule = "any_1" then decide (1 ≤ conditions_met_count)
  else if rule = "any_2" then decide (2 ≤ conditions_met_count)
  else if rule = "any_3" then decide (3 ≤ conditions_met_count)
  else if rule = "all" then conditions_met_count == total_conditions
  else false

/-- A per-condition evaluation record as handed to the recommendation
generator: the condition's fields, the observed value, and whether the
condition was met. -/
structure CondResult where
  indicator : String
  operator : String
  threshold_value : ℚ
  actual_value : ℚ
  met : Bool
deriving DecidableEq

/-- The fixed priority order of indicator-specific recommendations. -/
def INDICATOR_PRIORITY : List String := ["temp", "rainfall", "humidity", "wind_speed"]

/-- Heat-stress guidance for a met temperature condition. -/
def tempRec (v : ℚ) : String :=
  "High temperature alert: current temperature " ++ toString v ++
    " - monitor livestock for heat stress and ensure adequate shade and water"

/-- Conservation guidance for a met rainfall condition. -/
def rainfallRec (v : ℚ) : String :=
  "Low rainfall alert: current rainfall " ++ toString v ++
    " - implement water conservation measures and check storage levels"

/-- Fire-risk and moisture guidance for a met humidity condition. -/
def humidityRec (v : ℚ) : String :=
  "Humidity alert: current humidity " ++ toString v ++
    " - increase fire-risk monitoring and review moisture retention"

/-- Securing-equipment guidance for a met wind-speed condition. -/
def windRec (v : ℚ) : String :=
  "High wind speed alert: current wind speed " ++ toString v ++
    " - secure loose materials and equipment"

/-- The warning emitted when two or more distinct indicators are met. -/
def multiRec : String :=
  "Multiple drought indicators detected - escalate your drought response"

/-- The general drought-response guidance entry. -/
def generalRec : String :=
  "General drought response: activate your drought response plan and monitor local authority updates"

/-- The seek-expert-advice guidance entry. -/
def expertRec : String :=
  "Seek expert advice: contact your local agricultural advisor for region-specific guidance"

/-- The indicator-specific recommendation for one indicator key. -/
def indicatorRec (i : String) (v : ℚ) : String :=
  if i = "temp" then tempRec v
  else if i = "rainfall" then rainfallRec v
  else if i = "humidity" then humidityRec v
  else windRec v

/-- The indicator-specific recommendations for a list of met conditions:
one entry per distinct indicator present, in priority order, carrying the
first met condition's observed value. -/
def specificRecs (metConds : List CondResult) : List String :=
  INDICATOR_PRIORITY.filterMap (fun i =>
    (metConds.find? (fun c => c.indicator == i)).map
      (fun c => indicatorRec i c.actual_value))

/-- The number of distinct indicators present among a list of met
conditions. -/
def distinctMetIndicators (metConds : List CondResult) : ℕ :=
  (INDICATOR_PRIORITY.filter (fun i => metConds.any (fun c => c.indicator == i))).length

/-- Modelled from the spec: `get_trigger_recommendations` of
`backend/services/trigger_engine.py` (absent from the tree), following
spec section 4.5 and `TestRecommendations` in
`backend/services/test_trigger_engine.py`: only conditions with
`met = true` count; one recommendation per distinct met indicator in
priority order; a multiple-indicators warning when at least two distinct
indicators are met; general and expert-advice entries appended last, and
an input with no met condition yields the empty list. -/
def get_trigger_recommendations (conds : List CondResult) : List String :=
  if (conds.filter (fun c => c.met)).isEmpty then []
  else
    specificRecs (conds.filter (fun c => c.met)) ++
    (if 2 ≤ distinctMetIndicators (conds.filter (fun c => c.met)) then [multiRec] else []) ++
    [generalRec, expertRec]

/-- Modelled from the spec: `check_notification_rate_limit` of
`backend/services/trigger_engine.py` (absent from the tree), following
spec section 4.4 and `test_rate_limiting` in
`backend/test_trigger_engine.py`: with no prior notification-log entry the
send is allowed; with a prior entry at `t` it is allowed iff at least
`rate_limit_hours` hours elapsed since `t`.  Timestamps are in hours. -/
def check_notification_rate_limit (lastSent : Option ℚ) (now : ℚ)
    (rate_limit_hours : ℚ) : Bool × Option ℚ :=
  match lastSent with
  | none => (true, none)
  | some t => (decide (rate_limit_hours ≤ now - t), some t)

end TriggerEngine

namespace EmailService

/-- The module-level rate-limit window of
`backend/services/email_service.py` (line 38), in hours. -/
def RATE_LIMIT_HOURS : ℚ := 6

/-- Rate limiter `should_send_notification` of
`backend/services/email_service.py` (lines 366-413).  The database read of
the newest `notification_log.sent_at` for the `(trigger_id, user_id)`
pair is passed in explicitly: `Except.error` is a raised exception during
the lookup, `Except.ok none` means no prior entry, `Except.ok (some t)`
the newest entry's timestamp (in hours).  The body mirrors the source:
no row returns `True`; a row within the window returns `False`, else
`True`; any exception is caught and returns `True` (fail open). -/
def should_send_notification (lookupSentAt : Except String (Option ℚ))
    (now : ℚ) : Bool :=
  match lookupSentAt with
  | Except.error _ => true
  | Except.ok none => true
  | Except.ok (some last_sent) =>
    if now - last_sent < RATE_LIMIT_HOURS then false else true

end EmailService

/-- A row of the `triggers` table created by `init_triggers_table` in
`backend/routes/triggers.py`: the conditions column holds JSON text, the
timestamps are modelled as rationals. -/
structure TriggerRow where
  id : ℕ
  user_id : ℕ
  name : String
  region : String
  conditions : String
  combination_rule : String
  is_active : Bool
  created_at : ℚ
  updated_at : ℚ
deriving DecidableEq

namespace Routes

/-- The indicator keys of `AVAILABLE_INDICATORS` in `backend/config.py`. -/
def AVAILABLE_INDICATORS : List String := ["temp", "rainfall", "humidity", "wind_speed"]

/-- `COMBINATION_RULES` from `backend/config.py`. -/
def COMBINATION_RULES : List String := ["any_1", "any_2", "any_3", "all"]

/-- The operator whitelist of `TriggerCondition.validate_operator` in
`backend/routes/triggers.py`. -/
def VALID_OPERATORS : List String := [">", "<", ">=", "<=", "=="]

/-- The `TriggerCondition` request model of `backend/routes/triggers.py`. -/
structure TriggerCondition where
  indicator : String
  operator : String
  threshold : ℚ
deriving DecidableEq

/-- The two field validators of the `TriggerCondition` model: the
indicator must be a key of `AVAILABLE_INDICATORS` and the operator one of
the five supported ones. -/
def validTriggerCondition (c : TriggerCondition) : Bool :=
  AVAILABLE_INDICATORS.contains c.indicator && VALID_OPERATORS.contains c.operator

/-- The `TriggerCreate` request model of `backend/routes/triggers.py`
(lines 39-52). -/
structure TriggerCreate where
  user_id : ℤ
  name : String
  region : String
  conditions : List TriggerCondition
  combination_rule : String
  is_active : Bool
deriving DecidableEq

/-- Validation of a `TriggerCreate` request, from its pydantic field
constraints: name and region lengths in `[1, 100]`, at least one
condition (`min_items=1`), each condition field-valid, and the
combination rule in `COMBINATION_RULES`. -/
def validateTriggerCreate (t : TriggerCreate) : Bool :=
  decide (1 ≤ t.name.length) && decide (t.name.length ≤ 100) &&
  decide (1 ≤ t.region.length) && decide (t.region.length ≤ 100) &&
  decide (1 ≤ t.conditions.length) &&
  t.conditions.all validTriggerCondition &&
  COMBINATION_RULES.contains t.combination_rule

/-- The `TriggerUpdate` request model of `backend/routes/triggers.py`
(lines 55-67): every field optional, absent fields left unchanged. -/
structure TriggerUpdate where
  name : Option String
  region : Option String
  conditions : Option (List TriggerCondition)
  combination_rule : Option String
  is_active : Option Bool
deriving DecidableEq

/-- Validation of a `TriggerUpdate` request from its pydantic
constraints: each present field must satisfy the same bounds as at
creation; in particular a present conditions list must again be
non-empty (`min_items=1`). -/
def validateTriggerUpdate (u : TriggerUpdate) : Bool :=
  (match u.name with
    | none => true
    | some s => decide (1 ≤ s.length) && decide (s.length ≤ 100)) &&
  (match u.region with
    | none => true
    | some s => decide (1 ≤ s.length) && decide (s.length ≤ 100)) &&
  (match u.conditions with
    | none => true
    | some cs => decide (1 ≤ cs.length) && cs.all validTriggerCondition) &&
  (match u.combination_rule with
    | none => true
    | some r => COMBINATION_RULES.contains r)

/-- The `toggle_trigger` route of `backend/routes/triggers.py`
(lines 409-466) over an explicit table state: read `is_active` of the row
with the given id (404 error when absent), then update that row, setting
`is_active` to the negation of the value read and `updated_at` to the
current time, leaving every other column and row untouched. -/
def toggle_trigger (db : List TriggerRow) (trigger_id : ℕ) (now : ℚ) :
    Except String (List TriggerRow) :=
  match db.find? (fun r => r.id == trigger_id) with
  | none => Except.error ("Trigger " ++ toString trigger_id ++ " not found")
  | some r =>
    Except.ok (db.map (fun row =>
      if row.id == trigger_id then
        { row with is_active := !r.is_active, updated_at := now }
      else row))

end Routes

namespace Database

/-- `get_user_triggers` of `backend/database.py` (lines 226-236):
`SELECT * FROM triggers WHERE user_id = ? ORDER BY created_at DESC` over
an explicit table state — the rows of the given user, newest first, with
no filtering on `is_active`. -/
def get_user_triggers (db : List TriggerRow) (user_id : ℕ) : List TriggerRow :=
  (db.filter (fun r => r.user_id == user_id)).mergeSort
    (fun a b => decide (b.created_at ≤ a.created_at))

end Database

/-- Claim C2: for every pair of counts with `matched_count ≤ total_count`,
`any_N` (N in 1, 2, 3) fires exactly when at least `N` conditions matched,
and `all` fires exactly when every condition matched, including the
vacuous-truth case of zero conditions. -/
theorem combination_rule_semantics (m n : ℕ) (h : m ≤ n) :
    TriggerEngine.apply_combination_rule "any_1" m n = decide (1 ≤ m) ∧
    TriggerEngine.apply_combination_rule "any_2" m n = decide (2 ≤ m) ∧
    TriggerEngine.apply_combination_rule "any_3" m n = decide (3 ≤ m) ∧
    TriggerEngine.apply_combination_rule "all" m n = decide (m = n) ∧
    TriggerEngine.apply_combination_rule "all" 0 0 = true := by
  refine ⟨rfl, rfl, rfl, ?_, rfl⟩
  simp [TriggerEngine.apply_combination_rule, Bool.beq_eq_decide_eq]

theorem combination_rule_semantics_witness :
    TriggerEngine.apply_combination_rule "any_2" 2 3 = decide (2 ≤ 2) :=
  (combination_rule_semantics 2 3 (by decide)).2.1

/-- Claim C3: every rule name outside the four enumerated ones resolves to
false for all counts; unknown rules are absorbed as does-not-fire (the
resolver is a total function, so no exception can occur). -/
theorem unknown_rule_resolves_false (rule : String) (k n : ℕ)
    (h : rule ∉ ["any_1", "any_2", "any_3", "all"]) :
    TriggerEngine.apply_combination_rule rule k n = false := by
  simp only [List.mem_cons, List.not_mem_nil, or_false, not_or] at h
  obtain ⟨h1, h2, h3, h4⟩ := h
  simp [TriggerEngine.apply_combination_rule, h1, h2, h3, h4]

theorem unknown_rule_resolves_false_witness :
    TriggerEngine.apply_combination_rule "some_invalid_rule" 1 2 = false :=
  unknown_rule_resolves_false "some_invalid_rule" 1 2 (by decide)

/-- Claim C5: when the persistence lookup of the last notification-log
entry raises, the rate limiter returns allowed instead of propagating the
error: alert delivery fails open under infrastructure faults. -/
theorem rate_limit_lookup_failure_fails_open (e : String) (now : ℚ) :
    EmailService.should_send_notification (Except.error e) now = true := rfl

/-- Claim C4: the rate limiter allows a send when no prior notification-log
entry exists; with a prior entry it allows exactly when at least
`rate_limit_hours` hours elapsed since its `sent_at`; with a zero-hour
window it always allows.  The modelled engine limiter
`check_notification_rate_limit` is parametrised by the window; the
embedded `should_send_notification` of the email service fixes it to six
hours and agrees. -/
theorem rate_limiter_semantics (now t hrs : ℚ) (ht : t ≤ now) :
    TriggerEngine.check_notification_rate_limit none now hrs = (true, none) ∧
    (TriggerEngine.check_notification_rate_limit (some t) now hrs).1
      = decide (hrs ≤ now - t) ∧
    (TriggerEngine.check_notification_rate_limit (some t) now 0).1 = true ∧
    EmailService.should_send_notification (Except.ok none) now = true ∧
    EmailService.should_send_notification (Except.ok (some t)) now
      = decide (EmailService.RATE_LIMIT_HOURS ≤ now - t) := by
  refine ⟨rfl, rfl, ?_, rfl, ?_⟩
  · simp [TriggerEngine.check_notification_rate_limit, sub_nonneg, ht]
  · simp only [EmailService.should_send_notification]
    rcases lt_or_le (now - t) EmailService.RATE_LIMIT_HOURS with hlt | hle
    · simp [hlt, not_le.mpr hlt]
    · simp [not_lt.mpr hle, hle]

theorem rate_limiter_semantics_witness :
    TriggerEngine.check_notification_rate_limit none 7 6 = (true, none) :=
  (rate_limiter_semantics 7 0 6 (by decide)).1

/-- Claim C1: for a condition with one of the four known indicators, one
of the five known operators, and a numeric threshold, evaluated against a
weather snapshot holding the indicator's mapped field as a non-null
number, evaluation returns exactly the mathematical comparison of the
two values under the operator (`==` being exact equality), with no
error. -/
theorem condition_evaluation_correct (ind field op : String) (t x : ℚ)
    (w : TriggerEngine.WeatherData)
    (hind : TriggerEngine.INDICATOR_MAP.lookup ind = some field)
    (hop : op ∈ TriggerEngine.OPERATORS)
    (hw : List.lookup field w = some (TriggerEngine.Value.num x)) :
    TriggerEngine.evaluate_condition
        ⟨some ind, some op, some (TriggerEngine.Value.num t)⟩ w
      = (EmailService.evaluate_condition x op t, none) ∧
    (op = ">" → EmailService.evaluate_condition x op t = decide (x > t)) ∧
    (op = "<" → EmailService.evaluate_condition x op t = decide (x < t)) ∧
    (op = ">=" → EmailService.evaluate_condition x op t = decide (x ≥ t)) ∧
    (op = "<=" → EmailService.evaluate_condition x op t = decide (x ≤ t)) ∧
    (op = "==" → EmailService.evaluate_condition x op t = decide (x = t)) := by
  refine ⟨?_, ?_, ?_, ?_, ?_, ?_⟩
  · simp [TriggerEngine.evaluate_condition, hind, hop, hw, TriggerEngine.toFloat]
  all_goals intro hop'; subst hop'; rfl

theorem condition_evaluation_correct_witness :
    TriggerEngine.evaluate_condition
        ⟨some "temp", some ">", some (TriggerEngine.Value.num 25)⟩
        [("temperature", TriggerEngine.Value.num 27)]
      = (EmailService.evaluate_condition 27 ">" 25, none) :=
  (condition_evaluation_correct "temp" "temperature" ">" 25 27
    [("temperature", TriggerEngine.Value.num 27)] rfl (by decide) rfl).1

/-- Claim C6: condition evaluation coerces both the threshold and the
weather value to numbers before comparing: a string-encoded numeric such
as `25.0` is accepted and compared exactly as the number it denotes, with
no error, while a non-coercible string yields a validation error rather
than a comparison. -/
theorem condition_coercion (ind field op : String) (t x q : ℚ) (s : String)
    (w w2 : TriggerEngine.WeatherData)
    (hind : TriggerEngine.INDICATOR_MAP.lookup ind = some field)
    (hop : op ∈ TriggerEngine.OPERATORS)
    (hw : List.lookup field w = some (TriggerEngine.Value.num x))
    (hw2 : List.lookup field w2 = some (TriggerEngine.Value.str s)) :
    TriggerEngine.parseDecimal "25.0" = some 25 ∧
    (TriggerEngine.parseDecimal s = some q →
      TriggerEngine.evaluate_condition
          ⟨some ind, some op, some (TriggerEngine.Value.str s)⟩ w
        = (EmailService.evaluate_condition x op q, none)) ∧
    (TriggerEngine.parseDecimal s = some q →
      TriggerEngine.evaluate_condition
          ⟨some ind, some op, some (TriggerEngine.Value.num t)⟩ w2
        = (EmailService.evaluate_condition q op t, none)) ∧
    (TriggerEngine.parseDecimal s = none →
      TriggerEngine.evaluate_condition
          ⟨some ind, some op, some (TriggerEngine.Value.str s)⟩ w
        = (false, some "non-numeric value")) ∧
    (TriggerEngine.parseDecimal s = none →
      TriggerEngine.evaluate_condition
          ⟨some ind, some op, some (TriggerEngine.Value.num t)⟩ w2
        = (false, some "non-numeric value")) := by
  refine ⟨?_, ?_, ?_, ?_, ?_⟩
  · simp [TriggerEngine.parseDecimal,
      show TriggerEngine.parseParts "25.0" = some (250, 1) from by decide]
    norm_num
  all_goals intro hs
  all_goals simp [TriggerEngine.evaluate_condition, hind, hop, hw, hw2,
    TriggerEngine.toFloat, hs]

theorem condition_coercion_witness :
    TriggerEngine.parseDecimal "25.0" = some 25 :=
  (condition_coercion "temp" "temperature" ">" 25 27 27 "27"
    [("temperature", TriggerEngine.Value.num 27)]
    [("temperature", TriggerEngine.Value.str "27")] rfl (by decide) rfl rfl).1

/-- Claim C7: the recommendation generator considers only conditions with
`met = true` — an input with no met condition (in particular the empty
input) yields the empty list — and whenever at least one condition is
met, the general drought-response and seek-expert-advice entries come
last, after the indicator-specific entries. -/
theorem recommendations_only_for_met (conds : List TriggerEngine.CondResult) :
    (conds.filter (fun c => c.met) = [] ↔
      TriggerEngine.get_trigger_recommendations conds = []) ∧
    (conds.filter (fun c => c.met) ≠ [] →
      ∃ pre, TriggerEngine.get_trigger_recommendations conds
        = pre ++ [TriggerEngine.generalRec, TriggerEngine.expertRec]) := by
  rcases hm : conds.filter (fun c => c.met) with _ | ⟨c, cs⟩
  · simp [TriggerEngine.get_trigger_recommendations, hm]
  · have hres : TriggerEngine.get_trigger_recommendations conds
        = TriggerEngine.specificRecs (c :: cs) ++
          (if 2 ≤ TriggerEngine.distinctMetIndicators (c :: cs)
            then [TriggerEngine.multiRec] else []) ++
          [TriggerEngine.generalRec, TriggerEngine.expertRec] := by
      simp [TriggerEngine.get_trigger_recommendations, hm]
    refine ⟨⟨fun h => ?_, fun h => ?_⟩, fun _ => ⟨_, hres⟩⟩
    · rw [h] at hm; cases hm
    · rw [hres] at h; simp at h

theorem recommendations_only_for_met_witness :
    ∃ pre,
      TriggerEngine.get_trigger_recommendations [⟨"temp", ">", 25, 28, true⟩]
        = pre ++ [TriggerEngine.generalRec, TriggerEngine.expertRec] :=
  (recommendations_only_for_met [⟨"temp", ">", 25, 28, true⟩]).2 (by decide)

/-- Claim C8: a trigger creation or update request whose conditions list
is empty fails validation (a trigger with zero conditions is never
stored), while a creation request with at least one field-valid condition
and in-range fields passes validation. -/
theorem trigger_requires_conditions (t : Routes.TriggerCreate)
    (u : Routes.TriggerUpdate) :
    (t.conditions = [] → Routes.validateTriggerCreate t = false) ∧
    (1 ≤ t.name.length → t.name.length ≤ 100 →
     1 ≤ t.region.length → t.region.length ≤ 100 →
     t.conditions ≠ [] →
     t.conditions.all Routes.validTriggerCondition = true →
     t.combination_rule ∈ Routes.COMBINATION_RULES →
     Routes.validateTriggerCreate t = true) ∧
    (u.conditions = some [] → Routes.validateTriggerUpdate u = false) := by
  refine ⟨fun h => ?_, fun h1 h2 h3 h4 h5 h6 h7 => ?_, fun h => ?_⟩
  · simp [Routes.validateTriggerCreate, h]
  · have hlen : 1 ≤ t.conditions.length := List.length_pos.mpr h5
    simp [Routes.validateTriggerCreate, h1, h2, h3, h4, hlen, h6, h7]
  · simp [Routes.validateTriggerUpdate, h]

theorem trigger_requires_conditions_witness :
    Routes.validateTriggerCreate ⟨1, "Alert", "Taranaki", [], "any_1", true⟩
      = false :=
  (trigger_requires_conditions ⟨1, "Alert", "Taranaki", [], "any_1", true⟩
    ⟨none, none, none, none, none⟩).1 rfl

/-- In a mapped table, when the mapping preserves the id column, the
first row found by id is the image of the first row found by id in the
original table. -/
theorem find?_map_id_preserving (f : TriggerRow → TriggerRow)
    (hf : ∀ x, (f x).id = x.id) (tid : ℕ) :
    ∀ (l : List TriggerRow) (r : TriggerRow),
      l.find? (fun x => x.id == tid) = some r →
      (l.map f).find? (fun x => x.id == tid) = some (f r) := by
  intro l
  induction l with
  | nil => intro r h; simp at h
  | cons a as ih =>
    intro r h
    by_cases ha : (a.id == tid) = true
    · simp only [List.find?_cons, ha] at h
      obtain rfl : a = r := by injection h
      simp only [List.map_cons, List.find?_cons, hf, ha]
    · have ha' : (a.id == tid) = false := by simpa using ha
      simp only [List.find?_cons, ha'] at h
      simp only [List.map_cons, List.find?_cons, hf, ha']
      exact ih r h

/-- Claim C9: toggling an existing trigger flips exactly its `is_active`
flag and refreshes `updated_at`, leaving id, user_id, name, region,
conditions, combination_rule and created_at unchanged, and leaving every
other row of the table untouched. -/
theorem toggle_flips_only_is_active (db : List TriggerRow) (tid : ℕ)
    (now : ℚ) (r : TriggerRow)
    (h : db.find? (fun x => x.id == tid) = some r) :
    ∃ db', Routes.toggle_trigger db tid now = Except.ok db' ∧
      (∃ r', db'.find? (fun x => x.id == tid) = some r' ∧
        r'.is_active = !r.is_active ∧ r'.updated_at = now ∧
        r'.id = r.id ∧ r'.user_id = r.user_id ∧ r'.name = r.name ∧
        r'.region = r.region ∧ r'.conditions = r.conditions ∧
        r'.combination_rule = r.combination_rule ∧
        r'.created_at = r.created_at) ∧
      db'.length = db.length ∧
      (∀ row ∈ db, row.id ≠ tid → row ∈ db') := by
  have hf : ∀ x : TriggerRow,
      ((if x.id == tid then
          { x with is_active := !r.is_active, updated_at := now }
        else x) : TriggerRow).id = x.id := by
    intro x
    by_cases hx : (x.id == tid) = true <;> simp [hx]
  refine ⟨_, ?_, ⟨_, find?_map_id_preserving _ hf tid db r h, ?_⟩, ?_, ?_⟩
  · simp [Routes.toggle_trigger, h]
  · have hr := List.find?_some h
    simp only at hr
    simp [hr]
  · simp
  · intro row hrow hne
    have hb : (row.id == tid) = false := by simp [hne]
    have hrow' : ((if row.id == tid then
        { row with is_active := !r.is_active, updated_at := now }
      else row) : TriggerRow) = row := by simp [hb]
    exact hrow' ▸ List.mem_map_of_mem _ hrow

theorem toggle_flips_only_is_active_witness :
    ∃ db', Routes.toggle_trigger
        [⟨1, 7, "Alert", "Taranaki", "[]", "any_2", true, 10, 10⟩] 1 42
        = Except.ok db' ∧
      (∃ r', db'.find? (fun x => x.id == 1) = some r' ∧
        r'.is_active = !true ∧ r'.updated_at = 42 ∧
        r'.id = 1 ∧ r'.user_id = 7 ∧ r'.name = "Alert" ∧
        r'.region = "Taranaki" ∧ r'.conditions = "[]" ∧
        r'.combination_rule = "any_2" ∧ r'.created_at = 10) ∧
      db'.length = 1 ∧
      (∀ row ∈ [(⟨1, 7, "Alert", "Taranaki", "[]", "any_2", true, 10, 10⟩ : TriggerRow)],
        row.id ≠ 1 → row ∈ db') :=
  toggle_flips_only_is_active
    [⟨1, 7, "Alert", "Taranaki", "[]", "any_2", true, 10, 10⟩] 1 42
    ⟨1, 7, "Alert", "Taranaki", "[]", "any_2", true, 10, 10⟩ rfl

/-- Claim C10: the persistence helper returns exactly the stored triggers
of the given user — with no filtering on `is_active` — ordered by
`created_at` descending; any active-only filtering is its caller's
responsibility. -/
theorem get_user_triggers_returns_all (db : List TriggerRow) (uid : ℕ) :
    (∀ r, r ∈ Database.get_user_triggers db uid ↔ r ∈ db ∧ r.user_id = uid) ∧
    (Database.get_user_triggers db uid).Pairwise
      (fun a b => b.created_at ≤ a.created_at) := by
  constructor
  · intro r
    simp [Database.get_user_triggers, List.mem_filter]
  · refine List.Pairwise.imp (fun hab => of_decide_eq_true hab)
      (@List.sorted_mergeSort TriggerRow
        (fun a b => decide (b.created_at ≤ a.created_at)) ?_ ?_
        (db.filter (fun r => r.user_id == uid)))
    · intro a b c hab hbc
      simp only [decide_eq_true_eq] at *
      exact le_trans hbc hab
    · intro a b
      rcases le_total a.created_at b.created_at with hle | hle <;> simp [hle]

/-- An integer-valued variant of the weather snapshot used throughout
`backend/services/test_trigger_engine.py` (temperature 27.5 becomes 27,
rainfall 1.2 becomes 1), preserving the outcome of every comparison the
test suite performs on it. -/
def testWeather : TriggerEngine.WeatherData :=
  [("temperature", TriggerEngine.Value.num 27),
   ("rainfall", TriggerEngine.Value.num 1),
   ("humidity", TriggerEngine.Value.num 55),
   ("wind_speed", TriggerEngine.Value.num 15)]

/-- Mirror of `TestSingleConditionEvaluation` in
`backend/services/test_trigger_engine.py`: representative operator cases
against the test snapshot (temperature 27.5, rainfall 1.2). -/
theorem test_mirror_single_condition_evaluation :
    TriggerEngine.evaluate_condition
        ⟨some "temp", some ">", some (TriggerEngine.Value.num 25)⟩ testWeather
      = (true, none) ∧
    TriggerEngine.evaluate_condition
        ⟨some "temp", some ">", some (TriggerEngine.Value.num 30)⟩ testWeather
      = (false, none) ∧
    TriggerEngine.evaluate_condition
        ⟨some "rainfall", some "<", some (TriggerEngine.Value.num 2)⟩ testWeather
      = (true, none) ∧
    TriggerEngine.evaluate_condition
        ⟨some "humidity", some "<=", some (TriggerEngine.Value.num 55)⟩ testWeather
      = (true, none) ∧
    TriggerEngine.evaluate_condition
        ⟨some "wind_speed", some "==", some (TriggerEngine.Value.num 15)⟩ testWeather
      = (true, none) ∧
    TriggerEngine.evaluate_condition
        ⟨some "wind_speed", some "==", some (TriggerEngine.Value.num 20)⟩ testWeather
      = (false, none) := by
  decide

/-- Mirror of `TestEdgeCases` in
`backend/services/test_trigger_engine.py`: missing condition fields,
invalid operator and indicator, missing and null weather fields. -/
theorem test_mirror_edge_cases :
    TriggerEngine.evaluate_condition
        ⟨none, some ">", some (TriggerEngine.Value.num 25)⟩ testWeather
      = (false, some "missing required fields") ∧
    TriggerEngine.evaluate_condition
        ⟨some "temp", some ">", none⟩ testWeather
      = (false, some "missing required fields") ∧
    TriggerEngine.evaluate_condition
        ⟨some "temp", some "!=", some (TriggerEngine.Value.num 25)⟩ testWeather
      = (false, some "Invalid operator") ∧
    TriggerEngine.evaluate_condition
        ⟨some "pressure", some ">", some (TriggerEngine.Value.num 1000)⟩ testWeather
      = (false, some "Invalid indicator") ∧
    TriggerEngine.evaluate_condition
        ⟨some "temp", some ">", some (TriggerEngine.Value.num 25)⟩
        [("rainfall", TriggerEngine.Value.num 1)]
      = (false, some "missing indicator temperature") ∧
    TriggerEngine.evaluate_condition
        ⟨some "temp", some ">", some (TriggerEngine.Value.num 25)⟩
        [("temperature", TriggerEngine.Value.null)]
      = (false, some "null value") := by
  decide

/-- Mirror of `test_combination_rules_edge_cases` in
`backend/services/test_trigger_engine.py`: the resolver at every listed
edge case. -/
theorem test_mirror_combination_edge_cases :
    TriggerEngine.apply_combination_rule "any_1" 0 0 = false ∧
    TriggerEngine.apply_combination_rule "any_2" 1 1 = false ∧
    TriggerEngine.apply_combination_rule "any_3" 2 2 = false ∧
    TriggerEngine.apply_combination_rule "all" 4 4 = true ∧
    TriggerEngine.apply_combination_rule "any_1" 0 1 = false ∧
    TriggerEngine.apply_combination_rule "any_2" 0 2 = false ∧
    TriggerEngine.apply_combination_rule "any_1" 1 5 = true ∧
    TriggerEngine.apply_combination_rule "any_2" 2 5 = true ∧
    TriggerEngine.apply_combination_rule "any_3" 3 5 = true ∧
    TriggerEngine.apply_combination_rule "all" 5 5 = true ∧
    TriggerEngine.apply_combination_rule "all" 0 0 = true := by
  decide

/-- The string-coercion checks of `TestEdgeCases`: a numeric string
parses to its decimal value and a non-numeric string does not parse. -/
theorem test_mirror_string_coercion :
    TriggerEngine.parseParts "25.0" = some (250, 1) ∧
    TriggerEngine.parseParts "-3.5" = some (-35, 1) ∧
    TriggerEngine.parseParts "27" = some (27, 0) ∧
    TriggerEngine.parseDecimal "abc" = none ∧
    TriggerEngine.parseDecimal "" = none := by
  decide
